import Mathlib

/-!
Shallow embedding of the NYU DevOps inventory service.

The route layer is translated from `service/routes.py`.  The model layer
(`service/models.py`), the query-parameter constants (`service/constants.py`)
and the error handlers (`service/error_handlers.py`) are imported by the
routes but are not part of the available sources; the definitions standing in
for them are modelled from the specification (sections 3, 4.1, 4.2, 4.3, 7)
and are marked as such in their doc comments.

The persistent store is a list of records; the handlers are functions from a
request and a store to the updated store and an HTTP response.
-/

set_option autoImplicit false

namespace InventorySvc

/-- Modelled from the spec: the `Condition` enumeration of `service/models.py`
(not under `src/`), a closed set NEW, OPEN_BOX, USED (spec section 4.2). -/
inductive Condition where
  | NEW
  | OPEN_BOX
  | USED
  deriving DecidableEq

namespace Condition

/-- Modelled from the spec: the string name of an enumeration member, used as
the wire representation (spec sections 4.1 and 4.2). -/
def name : Condition → String
  | NEW => "NEW"
  | OPEN_BOX => "OPEN_BOX"
  | USED => "USED"

/-- Modelled from the spec: looking an enumeration member up by name, as the
Python expression `Condition[s]` does; the match is exact and case-sensitive
and every other string is rejected (spec section 4.2). -/
def fromName (s : String) : Option Condition :=
  if s = "NEW" then some NEW
  else if s = "OPEN_BOX" then some OPEN_BOX
  else if s = "USED" then some USED
  else none

end Condition

/-- Modelled from the spec: the `Inventory` record of `service/models.py`
(not under `src/`): the data model of spec section 3. -/
structure Inventory where
  product_id : Int
  condition : Condition
  quantity : Int
  restock_level : Option Int
  available : Bool
  deriving DecidableEq

/-- A JSON value, as far as the service's payloads need. -/
inductive JVal where
  | jInt (n : Int)
  | jStr (s : String)
  | jBool (b : Bool)
  | jNull
  deriving DecidableEq

/-- The body handed to `deserialize`: either a JSON mapping or something that
is not a mapping (which also stands for the `None` that Flask's `get_json`
yields when the request carries no usable JSON). -/
inductive JData where
  | jMap (kvs : List (String × JVal))
  | jNonMap
  deriving DecidableEq

/-- An HTTP request as the handlers see it: the `Content-Type` header, when
present, and the parsed body. -/
structure Request where
  contentType : Option String
  body : JData
  deriving DecidableEq

/-- The responses the handlers produce, tagged by status code. -/
inductive Response where
  /-- 200 with a single serialized record -/
  | ok (body : List (String × JVal))
  /-- 200 with an array of serialized records (list endpoint) -/
  | okList (body : List (List (String × JVal)))
  /-- 201 with the serialized record that was created -/
  | created (body : List (String × JVal))
  /-- 204, empty body -/
  | noContent
  /-- 400 -/
  | badRequest (msg : String)
  /-- 404 -/
  | notFound (msg : String)
  /-- 415 -/
  | unsupportedMediaType (msg : String)
  deriving DecidableEq

/- Modelled from the spec: the query-parameter key constants of
`service/constants.py` (not under `src/`); the key names are fixed by spec
section 4.3. -/

def PRODUCT_ID : String := "product_id"

def CONDITION : String := "condition"

def QUANTITY : String := "quantity"

def RESTOCK_LEVEL : String := "restock_level"

def AVAILABLE : String := "available"

namespace Inventory

/-- Modelled from the spec: `serialize` of `service/models.py` (not under
`src/`) produces a mapping with keys `product_id` (int), `condition` (the
enum's name string), `quantity` (int), `restock_level` (int or null) and
`available` (bool) (spec sections 4.1 and 6, checked against
`src/tests/test_models.py::test_serialize_an_inventory`). -/
def serialize (inv : Inventory) : List (String × JVal) :=
  [ (PRODUCT_ID, JVal.jInt inv.product_id),
    (CONDITION, JVal.jStr inv.condition.name),
    (QUANTITY, JVal.jInt inv.quantity),
    (RESTOCK_LEVEL, match inv.restock_level with
      | some n => JVal.jInt n
      | none => JVal.jNull),
    (AVAILABLE, JVal.jBool inv.available) ]

/-- A required integer field of the payload: present with an integer value,
or a validation error. -/
def getIntField (kvs : List (String × JVal)) (k : String) : Except String Int :=
  match kvs.lookup k with
  | some (JVal.jInt n) => Except.ok n
  | some _ => Except.error ("Invalid Inventory: wrong type for " ++ k)
  | none => Except.error ("Invalid Inventory: missing " ++ k)

/-- The condition field of the payload: present as a string that is a valid
enum name, or a validation error. -/
def getCondField (kvs : List (String × JVal)) : Except String Condition :=
  match kvs.lookup CONDITION with
  | some (JVal.jStr s) =>
    match Condition.fromName s with
    | some c => Except.ok c
    | none => Except.error ("Invalid Inventory: invalid condition " ++ s)
  | some _ => Except.error ("Invalid Inventory: wrong type for condition")
  | none => Except.error ("Invalid Inventory: missing condition")

/-- The optional `restock_level` field of the payload. -/
def getRestockField (kvs : List (String × JVal)) : Option Int :=
  match kvs.lookup RESTOCK_LEVEL with
  | some (JVal.jInt n) => some n
  | _ => none

/-- The `available` field of the payload, defaulting to true (spec section 3:
`available` defaults to true on creation). -/
def getAvailableField (kvs : List (String × JVal)) : Bool :=
  match kvs.lookup AVAILABLE with
  | some (JVal.jBool b) => b
  | _ => true

/-- Modelled from the spec: `deserialize` of `service/models.py` (not under
`src/`).  It fails with a validation error when the data is not a mapping,
`product_id` is missing, `condition` is missing or not a valid enum name
(case-sensitive), or `quantity` is missing (spec section 4.1, checked against
the deserialize tests of `src/tests/test_models.py`); `restock_level` is
optional and `available` defaults to true (spec section 3). -/
def deserialize (data : JData) : Except String Inventory :=
  match data with
  | JData.jNonMap => Except.error ("Invalid Inventory: body contained bad or no data")
  | JData.jMap kvs =>
    match getIntField kvs PRODUCT_ID with
    | Except.error e => Except.error e
    | Except.ok pid =>
      match getCondField kvs with
      | Except.error e => Except.error e
      | Except.ok cond =>
        match getIntField kvs QUANTITY with
        | Except.error e => Except.error e
        | Except.ok qty =>
          Except.ok ⟨pid, cond, qty, getRestockField kvs, getAvailableField kvs⟩

/- The finder methods of `service/models.py` are not under `src/`; they are
modelled from spec section 4.3.  Query-string values arrive as strings and
the integer-valued filters interpret them as integers. -/

/-- The numeric value of a decimal digit character. -/
def digitVal (c : Char) : Option Nat :=
  if c.isDigit then some (c.toNat - 48) else none

/-- Accumulate decimal digits; any non-digit spoils the parse. -/
def parseNatAux : List Char → Nat → Option Nat
  | [], acc => some acc
  | c :: cs, acc =>
    match digitVal c with
    | some d => parseNatAux cs (acc * 10 + d)
    | none => none

/-- A non-empty all-digit character list as a natural number. -/
def parseNatChars : List Char → Option Nat
  | [] => none
  | cs => parseNatAux cs 0

/-- A decimal integer (optional leading minus sign) read from a query-string
value; anything else parses to nothing. -/
def parseQueryInt (s : String) : Option Int :=
  match s.data with
  | '-' :: rest => (parseNatChars rest).map (fun n => -(n : Int))
  | cs => (parseNatChars cs).map (fun n => (n : Int))

/-- Modelled from the spec: all records with the given product id
(spec section 4.3 item 1). -/
def find_by_product_id (store : List Inventory) (v : String) : List Inventory :=
  store.filter (fun r => parseQueryInt v == some r.product_id)

/-- Modelled from the spec: all records with the given condition
(spec section 4.3 item 2). -/
def find_by_condition (store : List Inventory) (c : Condition) : List Inventory :=
  store.filter (fun r => r.condition == c)

/-- Modelled from the spec: all records with exactly the given quantity
(spec section 4.3 item 3). -/
def find_by_quantity (store : List Inventory) (v : String) : List Inventory :=
  store.filter (fun r => parseQueryInt v == some r.quantity)

/-- Modelled from the spec: all records with the given restock level; the
value 0 is a valid filter (spec section 4.3 item 4). -/
def find_by_restock_level (store : List Inventory) (v : String) : List Inventory :=
  store.filter (fun r =>
    match parseQueryInt v with
    | some n => r.restock_level == some n
    | none => false)

/-- Modelled from the spec: all records with the given availability flag
(spec section 4.3 item 5); the query-string value is read as a boolean. -/
def find_by_availability (store : List Inventory) (v : String) : List Inventory :=
  store.filter (fun r =>
    match v with
    | "true" => r.available == true
    | "True" => r.available == true
    | "false" => r.available == false
    | "False" => r.available == false
    | _ => false)

/-- Modelled from the spec: the single record with the given natural key
(product_id, condition), the condition given by its name string as it appears
in the URL path (spec section 3, Invariants; section 6 get-by-key). -/
def find_by_product_id_condition (store : List Inventory) (pid : Int)
    (cond : String) : Option Inventory :=
  store.find? (fun r => r.product_id == pid && r.condition.name == cond)

end Inventory

/-- From `service/routes.py::check_content_type`: the check passes exactly
when a `Content-Type` header is present and equals the expected string. -/
def check_content_type (req : Request) (contentType : String) : Bool :=
  req.contentType == some contentType

/-- Flask's `request.get_json()`: yields the parsed body when the request
declares `application/json`, and nothing usable otherwise (which
`deserialize` then rejects). -/
def get_json (req : Request) : JData :=
  if req.contentType == some ("application/json") then req.body else JData.jNonMap

/-- The filter dispatch of `service/routes.py::list_inventory` (lines 87-107):
the `if/elif` chain selecting exactly one finder by key presence, in the fixed
order product_id, condition, quantity, restock_level, available; unrecognized
non-empty parameters are a bad request; no parameters at all selects all
records.  An invalid condition name fails; modelled from the spec as a
validation error surfaced as a bad request (spec sections 4.3 and 7). -/
def selectInventories (params : List (String × String))
    (store : List Inventory) : Except Response (List Inventory) :=
  match params.lookup PRODUCT_ID with
  | some v => Except.ok (Inventory.find_by_product_id store v)
  | none =>
    match params.lookup CONDITION with
    | some v =>
      match Condition.fromName v with
      | some c => Except.ok (Inventory.find_by_condition store c)
      | none => Except.error (Response.badRequest ("Invalid condition " ++ v))
    | none =>
      match params.lookup QUANTITY with
      | some v => Except.ok (Inventory.find_by_quantity store v)
      | none =>
        match params.lookup RESTOCK_LEVEL with
        | some v =>
          -- the source guards `if restock_level is not None`, which a present
          -- query parameter always satisfies
          Except.ok (Inventory.find_by_restock_level store v)
        | none =>
          match params.lookup AVAILABLE with
          | some v => Except.ok (Inventory.find_by_availability store v)
          | none =>
            if params.isEmpty then Except.ok store
            else Except.error (Response.badRequest ("Invalid request parameters"))

/-- From `service/routes.py::list_inventory` (lines 80-111): select the
inventories per the filter dispatch, serialize them, and answer 404 when the
serialized result list is empty, 200 with the array otherwise. -/
def list_inventory (params : List (String × String))
    (store : List Inventory) : Response :=
  match selectInventories params store with
  | Except.error resp => resp
  | Except.ok invs =>
    let results := invs.map Inventory.serialize
    if results.length = 0 then Response.notFound ("Inventory was not found")
    else Response.okList results

/-- From `service/routes.py::create_inventory` (lines 118-136): check the
content type (415 on failure), deserialize the posted body (validation errors
become 400 at the boundary, spec section 7), persist the new record, answer
201 with the serialized record. -/
def create_inventory (req : Request) (store : List Inventory) :
    List Inventory × Response :=
  if check_content_type req ("application/json") then
    match Inventory.deserialize (get_json req) with
    | Except.error e => (store, Response.badRequest e)
    | Except.ok inv => (store ++ [inv], Response.created inv.serialize)
  else
    (store, Response.unsupportedMediaType ("Content-Type must be application/json"))

/-- Replace the record with the given natural key by `r`, as `update()`
persists the loaded row in place. -/
def replaceRecord (store : List Inventory) (pid : Int) (cond : String)
    (r : Inventory) : List Inventory :=
  store.map (fun x =>
    if x.product_id == pid && x.condition.name == cond then r else x)

/-- From `service/routes.py::update_inventory` (lines 195-210): look the
record up by the path's natural key (404 when absent), deserialize the body
(note: no content-type check here), overwrite the body's identity fields with
the path parameters, persist.  The source assigns the path's condition string
to the record; the ORM stores the enum member of that name, which is the found
record's condition since the lookup matched on the name. -/
def update_inventory (pid : Int) (cond : String) (req : Request)
    (store : List Inventory) : List Inventory × Response :=
  match Inventory.find_by_product_id_condition store pid cond with
  | none => (store, Response.notFound ("Inventory was not found"))
  | some inv =>
    match Inventory.deserialize (get_json req) with
    | Except.error e => (store, Response.badRequest e)
    | Except.ok r =>
      let r2 := { r with product_id := pid, condition := inv.condition }
      (replaceRecord store pid cond r2, Response.ok r2.serialize)

/-- From `service/routes.py::activate_inventory` (lines 213-229): as update,
then force `available := true` before persisting. -/
def activate_inventory (pid : Int) (cond : String) (req : Request)
    (store : List Inventory) : List Inventory × Response :=
  match Inventory.find_by_product_id_condition store pid cond with
  | none => (store, Response.notFound ("Inventory was not found"))
  | some inv =>
    match Inventory.deserialize (get_json req) with
    | Except.error e => (store, Response.badRequest e)
    | Except.ok r =>
      let r2 := { r with product_id := pid, condition := inv.condition,
                         available := true }
      (replaceRecord store pid cond r2, Response.ok r2.serialize)

/-- From `service/routes.py::deactivate_inventory` (lines 232-248): as update,
then force `available := false` before persisting. -/
def deactivate_inventory (pid : Int) (cond : String) (req : Request)
    (store : List Inventory) : List Inventory × Response :=
  match Inventory.find_by_product_id_condition store pid cond with
  | none => (store, Response.notFound ("Inventory was not found"))
  | some inv =>
    match Inventory.deserialize (get_json req) with
    | Except.error e => (store, Response.badRequest e)
    | Except.ok r =>
      let r2 := { r with product_id := pid, condition := inv.condition,
                         available := false }
      (replaceRecord store pid cond r2, Response.ok r2.serialize)

/-- From `service/routes.py::delete_inventory` (lines 255-266): look the
record up by the path's natural key; delete it when found; answer 204 with an
empty body either way. -/
def delete_inventory (pid : Int) (cond : String)
    (store : List Inventory) : List Inventory × Response :=
  match Inventory.find_by_product_id_condition store pid cond with
  | none => (store, Response.noContent)
  | some _ =>
    (store.filter (fun r => !(r.product_id == pid && r.condition.name == cond)),
     Response.noContent)

namespace Inventory

/-- The payload has an integer value at key `k`. -/
def hasIntField (kvs : List (String × JVal)) (k : String) : Bool :=
  match kvs.lookup k with
  | some (JVal.jInt _) => true
  | _ => false

/-- The payload's `condition` entry is a string naming an enum member. -/
def hasValidCondField (kvs : List (String × JVal)) : Bool :=
  match kvs.lookup CONDITION with
  | some (JVal.jStr s) => (Condition.fromName s).isSome
  | _ => false

end Inventory

theorem Condition.fromName_name (c : Condition) :
    Condition.fromName c.name = some c := by
  cases c <;> rfl

theorem Inventory.hasIntField_iff (kvs : List (String × JVal)) (k : String) :
    Inventory.hasIntField kvs k = true ↔
      ∃ n, Inventory.getIntField kvs k = Except.ok n := by
  unfold Inventory.hasIntField Inventory.getIntField
  cases h : kvs.lookup k with
  | none => simp
  | some v => cases v <;> simp

theorem Inventory.hasValidCondField_iff (kvs : List (String × JVal)) :
    Inventory.hasValidCondField kvs = true ↔
      ∃ c, Inventory.getCondField kvs = Except.ok c := by
  unfold Inventory.hasValidCondField Inventory.getCondField
  cases h : kvs.lookup CONDITION with
  | none => simp
  | some v =>
    cases v with
    | jStr s => cases hc : Condition.fromName s <;> simp [hc]
    | jInt n => simp
    | jBool b => simp
    | jNull => simp

/-- Claim C8: deserializing the mapping produced by `serialize r` recovers
`r` itself — in particular the four logical fields `product_id`, `condition`,
`quantity` and `restock_level` are unchanged (round-trip identity). -/
theorem claim_C8_roundtrip (r : Inventory) :
    Inventory.deserialize (JData.jMap (Inventory.serialize r)) = Except.ok r := by
  cases r with
  | mk pid cond qty rl avail =>
    cases cond <;> cases rl <;> rfl

/-- Claim C7: `deserialize data` succeeds exactly when `data` is a mapping
carrying an integer `product_id`, a `condition` string that is an exact
case-sensitive enum name, and an integer `quantity`; it fails with a
validation error in every other case (not a mapping, or a required field
missing or unusable). -/
theorem claim_C7_deserialize_validation (data : JData) :
    (∃ inv, Inventory.deserialize data = Except.ok inv) ↔
      ∃ kvs, data = JData.jMap kvs ∧
        Inventory.hasIntField kvs PRODUCT_ID = true ∧
        Inventory.hasValidCondField kvs = true ∧
        Inventory.hasIntField kvs QUANTITY = true := by
  cases data with
  | jNonMap => simp [Inventory.deserialize]
  | jMap kvs =>
    cases hp : Inventory.getIntField kvs PRODUCT_ID with
    | error e =>
      simp [Inventory.deserialize, hp, Inventory.hasIntField_iff]
    | ok pid =>
      cases hc : Inventory.getCondField kvs with
      | error e =>
        simp [Inventory.deserialize, hp, hc, Inventory.hasIntField_iff,
          Inventory.hasValidCondField_iff]
      | ok cond =>
        cases hq : Inventory.getIntField kvs QUANTITY with
        | error e =>
          simp [Inventory.deserialize, hp, hc, hq, Inventory.hasIntField_iff,
            Inventory.hasValidCondField_iff]
        | ok qty =>
          simp [Inventory.deserialize, hp, hc, hq, Inventory.hasIntField_iff,
            Inventory.hasValidCondField_iff]

/-- Claim C7, witness: a mapping with the three required fields well formed
deserializes successfully. -/
theorem claim_C7_witness :
    ∃ inv, Inventory.deserialize (JData.jMap
      [(PRODUCT_ID, JVal.jInt 1), (CONDITION, JVal.jStr ("NEW")),
        (QUANTITY, JVal.jInt 2)]) = Except.ok inv := by
  exact (claim_C7_deserialize_validation _).mpr ⟨_, rfl, rfl, rfl, rfl⟩

/-- Claim C1, counterexample: the update route performs no content-type
check.  A PUT update whose request declares `text/plain` on an existing
record answers 400 (the body is unusable as JSON), not the 415 the claim
requires — and only after the storage lookup has already run. -/
theorem claim_C1_counterexample :
    (update_inventory 1 "NEW"
      ⟨some ("text/plain"),
        JData.jMap [(PRODUCT_ID, JVal.jInt 1), (CONDITION, JVal.jStr ("NEW")),
          (QUANTITY, JVal.jInt 5)]⟩
      [⟨1, Condition.NEW, 5, some 3, true⟩]).2 =
      Response.badRequest ("Invalid Inventory: body contained bad or no data") := by
  rfl

/-- Claim C1, amended: only the create operation checks the content type —
a create request without content type `application/json` fails with 415
leaving the store untouched; update, activate and deactivate perform no
content-type check and never answer 415. -/
theorem claim_C1_amended (req : Request) (store : List Inventory)
    (h : req.contentType ≠ some ("application/json")) :
    create_inventory req store =
        (store, Response.unsupportedMediaType ("Content-Type must be application/json")) ∧
      (∀ pid cond m, (update_inventory pid cond req store).2 ≠
        Response.unsupportedMediaType m) ∧
      (∀ pid cond m, (activate_inventory pid cond req store).2 ≠
        Response.unsupportedMediaType m) ∧
      (∀ pid cond m, (deactivate_inventory pid cond req store).2 ≠
        Response.unsupportedMediaType m) := by
  have hb : (req.contentType == some ("application/json")) = false :=
    beq_eq_false_iff_ne.mpr h
  refine ⟨?_, ?_, ?_, ?_⟩
  · simp [create_inventory, check_content_type, hb]
  · intro pid cond m
    unfold update_inventory
    cases hf : Inventory.find_by_product_id_condition store pid cond with
    | none => simp
    | some inv => simp [get_json, hb, Inventory.deserialize]
  · intro pid cond m
    unfold activate_inventory
    cases hf : Inventory.find_by_product_id_condition store pid cond with
    | none => simp
    | some inv => simp [get_json, hb, Inventory.deserialize]
  · intro pid cond m
    unfold deactivate_inventory
    cases hf : Inventory.find_by_product_id_condition store pid cond with
    | none => simp
    | some inv => simp [get_json, hb, Inventory.deserialize]

/-- Claim C1, witness for the amended theorem at a concrete non-JSON
request. -/
theorem claim_C1_witness :
    create_inventory ⟨some ("text/plain"), JData.jNonMap⟩ [] =
        ([], Response.unsupportedMediaType ("Content-Type must be application/json")) ∧
      (update_inventory 1 "NEW" ⟨some ("text/plain"), JData.jNonMap⟩ []).2 ≠
        Response.unsupportedMediaType ("Content-Type must be application/json") := by
  have h := claim_C1_amended ⟨some ("text/plain"), JData.jNonMap⟩ [] (by decide)
  exact ⟨h.1, h.2.1 1 "NEW" _⟩

/-- Claim C2, counterexample: activate deserializes the request body before
flipping the flag, so `quantity` and `restock_level` are taken from the body,
not preserved.  Activating the record (1, NEW, quantity 5, restock 3) with a
body carrying quantity 7 and no restock_level leaves the store holding
quantity 7 and restock_level null — not the pre-call values 5 and 3 the claim
requires. -/
theorem claim_C2_counterexample :
    (activate_inventory 1 "NEW"
        ⟨some ("application/json"),
          JData.jMap [(PRODUCT_ID, JVal.jInt 1), (CONDITION, JVal.jStr ("NEW")),
            (QUANTITY, JVal.jInt 7)]⟩
        [⟨1, Condition.NEW, 5, some 3, false⟩]).1 =
      [⟨1, Condition.NEW, 7, none, true⟩] ∧
    (activate_inventory 1 "NEW"
        ⟨some ("application/json"),
          JData.jMap [(PRODUCT_ID, JVal.jInt 1), (CONDITION, JVal.jStr ("NEW")),
            (QUANTITY, JVal.jInt 7)]⟩
        [⟨1, Condition.NEW, 5, some 3, false⟩]).1 ≠
      [⟨1, Condition.NEW, 5, some 3, true⟩] := by
  exact ⟨rfl, by decide⟩

/-- Claim C2, amended: on an existing record, activate answers 200 with
`available` forced to true and deactivate with `available` forced to false,
`product_id` and `condition` pinned to the path; `quantity` and
`restock_level` come from the record deserialized out of the request body, so
they keep their pre-call values only when the body resupplies them. -/
theorem claim_C2_amended (pid : Int) (cond : String) (req : Request)
    (store : List Inventory) :
    (∀ store2 b, activate_inventory pid cond req store = (store2, Response.ok b) →
      ∃ inv r, Inventory.find_by_product_id_condition store pid cond = some inv ∧
        Inventory.deserialize (get_json req) = Except.ok r ∧
        store2 = replaceRecord store pid cond
          { r with product_id := pid, condition := inv.condition, available := true } ∧
        b = Inventory.serialize
          { r with product_id := pid, condition := inv.condition, available := true }) ∧
    (∀ store2 b, deactivate_inventory pid cond req store = (store2, Response.ok b) →
      ∃ inv r, Inventory.find_by_product_id_condition store pid cond = some inv ∧
        Inventory.deserialize (get_json req) = Except.ok r ∧
        store2 = replaceRecord store pid cond
          { r with product_id := pid, condition := inv.condition, available := false } ∧
        b = Inventory.serialize
          { r with product_id := pid, condition := inv.condition, available := false }) := by
  constructor
  · intro store2 b hab
    unfold activate_inventory at hab
    cases hf : Inventory.find_by_product_id_condition store pid cond with
    | none => rw [hf] at hab; simp at hab
    | some inv =>
      rw [hf] at hab
      cases hd : Inventory.deserialize (get_json req) with
      | error e => rw [hd] at hab; simp at hab
      | ok r =>
        rw [hd] at hab
        simp only [Prod.mk.injEq, Response.ok.injEq] at hab
        exact ⟨inv, r, rfl, rfl, hab.1.symm, hab.2.symm⟩
  · intro store2 b hab
    unfold deactivate_inventory at hab
    cases hf : Inventory.find_by_product_id_condition store pid cond with
    | none => rw [hf] at hab; simp at hab
    | some inv =>
      rw [hf] at hab
      cases hd : Inventory.deserialize (get_json req) with
      | error e => rw [hd] at hab; simp at hab
      | ok r =>
        rw [hd] at hab
        simp only [Prod.mk.injEq, Response.ok.injEq] at hab
        exact ⟨inv, r, rfl, rfl, hab.1.symm, hab.2.symm⟩

/-- Claim C2, witness for the amended theorem at a concrete activate call. -/
theorem claim_C2_witness :
    ∃ inv r,
      Inventory.find_by_product_id_condition
        [⟨1, Condition.NEW, 5, some 3, false⟩] 1 "NEW" = some inv ∧
      Inventory.deserialize (get_json
        ⟨some ("application/json"),
          JData.jMap [(PRODUCT_ID, JVal.jInt 1), (CONDITION, JVal.jStr ("NEW")),
            (QUANTITY, JVal.jInt 7)]⟩) = Except.ok r ∧
      [⟨1, Condition.NEW, 7, none, true⟩] =
        replaceRecord [⟨1, Condition.NEW, 5, some 3, false⟩] 1 "NEW"
          { r with product_id := 1, condition := inv.condition, available := true } ∧
      [(PRODUCT_ID, JVal.jInt 1), (CONDITION, JVal.jStr ("NEW")),
        (QUANTITY, JVal.jInt 7), (RESTOCK_LEVEL, JVal.jNull),
        (AVAILABLE, JVal.jBool true)] =
        Inventory.serialize
          { r with product_id := 1, condition := inv.condition, available := true } := by
  exact (claim_C2_amended 1 "NEW"
    ⟨some ("application/json"),
      JData.jMap [(PRODUCT_ID, JVal.jInt 1), (CONDITION, JVal.jStr ("NEW")),
        (QUANTITY, JVal.jInt 7)]⟩
    [⟨1, Condition.NEW, 5, some 3, false⟩]).1
    [⟨1, Condition.NEW, 7, none, true⟩]
    [(PRODUCT_ID, JVal.jInt 1), (CONDITION, JVal.jStr ("NEW")),
      (QUANTITY, JVal.jInt 7), (RESTOCK_LEVEL, JVal.jNull),
      (AVAILABLE, JVal.jBool true)] rfl

theorem lookup_eq_none_of_forall_ne {β : Type} (k : String)
    (params : List (String × β)) (h : ∀ kv ∈ params, kv.1 ≠ k) :
    params.lookup k = none := by
  induction params with
  | nil => rfl
  | cons kv rest ih =>
    have hk : (k == kv.1) = false :=
      beq_eq_false_iff_ne.mpr (fun he => h kv (List.mem_cons_self kv rest) he.symm)
    simp only [List.lookup, hk]
    exact ih (fun kv2 h2 => h kv2 (List.mem_cons_of_mem kv h2))

/-- Claim C3: the list endpoint applies exactly one filter, chosen by first
match in the fixed order product_id, condition, quantity, restock_level,
available; in particular a present `product_id` decides the result whatever
other parameters (such as `condition`) say, and an empty parameter set
selects all records, returned in full when any exist. -/
theorem claim_C3_filter_priority (params : List (String × String))
    (store : List Inventory) :
    (∀ v, params.lookup PRODUCT_ID = some v →
      selectInventories params store =
        Except.ok (Inventory.find_by_product_id store v)) ∧
    (params.lookup PRODUCT_ID = none →
      ∀ v c, params.lookup CONDITION = some v → Condition.fromName v = some c →
      selectInventories params store =
        Except.ok (Inventory.find_by_condition store c)) ∧
    (params.lookup PRODUCT_ID = none → params.lookup CONDITION = none →
      ∀ v, params.lookup QUANTITY = some v →
      selectInventories params store =
        Except.ok (Inventory.find_by_quantity store v)) ∧
    (params.lookup PRODUCT_ID = none → params.lookup CONDITION = none →
      params.lookup QUANTITY = none →
      ∀ v, params.lookup RESTOCK_LEVEL = some v →
      selectInventories params store =
        Except.ok (Inventory.find_by_restock_level store v)) ∧
    (params.lookup PRODUCT_ID = none → params.lookup CONDITION = none →
      params.lookup QUANTITY = none → params.lookup RESTOCK_LEVEL = none →
      ∀ v, params.lookup AVAILABLE = some v →
      selectInventories params store =
        Except.ok (Inventory.find_by_availability store v)) ∧
    (params = [] → selectInventories params store = Except.ok store) ∧
    (params = [] → store ≠ [] →
      list_inventory params store =
        Response.okList (store.map Inventory.serialize)) := by
  refine ⟨?_, ?_, ?_, ?_, ?_, ?_, ?_⟩
  · intro v h1
    simp [selectInventories, h1]
  · intro h1 v c h2 h3
    simp [selectInventories, h1, h2, h3]
  · intro h1 h2 v h3
    simp [selectInventories, h1, h2, h3]
  · intro h1 h2 h3 v h4
    simp [selectInventories, h1, h2, h3, h4]
  · intro h1 h2 h3 h4 v h5
    simp [selectInventories, h1, h2, h3, h4, h5]
  · intro h
    subst h
    rfl
  · intro h hs
    subst h
    simp [list_inventory, selectInventories, hs]

/-- Claim C3, witness: with both `product_id=1` and `condition=BAD` supplied,
the product_id filter alone decides the answer (the unusable condition value
is never even parsed). -/
theorem claim_C3_witness :
    selectInventories [(PRODUCT_ID, "1"), (CONDITION, "BAD")]
        [⟨1, Condition.NEW, 2, some 3, true⟩] =
      Except.ok [⟨1, Condition.NEW, 2, some 3, true⟩] := by
  have h := (claim_C3_filter_priority [(PRODUCT_ID, "1"), (CONDITION, "BAD")]
    [⟨1, Condition.NEW, 2, some 3, true⟩]).1 "1" rfl
  rw [h]
  rfl

/-- Claim C4, counterexample: a list request carrying both `product_id=1`
and the invalid condition name `BAD` answers 200 with the product_id filter's
result — the invalid condition value is silently ignored because product_id
takes priority, so the operation does not fail as the claim demands. -/
theorem claim_C4_counterexample :
    list_inventory [(PRODUCT_ID, "1"), (CONDITION, "BAD")]
        [⟨1, Condition.NEW, 2, some 3, true⟩] =
      Response.okList [[(PRODUCT_ID, JVal.jInt 1), (CONDITION, JVal.jStr ("NEW")),
        (QUANTITY, JVal.jInt 2), (RESTOCK_LEVEL, JVal.jInt 3),
        (AVAILABLE, JVal.jBool true)]] := by
  rfl

/-- Claim C4, amended: on a list request that does not also carry a
`product_id` parameter, a `condition` value that is not exactly one of NEW,
OPEN_BOX, USED (case-sensitive) fails with a bad-request error, never being
coerced; when `product_id` is present it takes priority and the condition
value is ignored. -/
theorem claim_C4_amended (params : List (String × String))
    (store : List Inventory) (v : String)
    (h1 : params.lookup PRODUCT_ID = none)
    (h2 : params.lookup CONDITION = some v)
    (h3 : Condition.fromName v = none) :
    list_inventory params store = Response.badRequest ("Invalid condition " ++ v) := by
  simp [list_inventory, selectInventories, h1, h2, h3]

/-- Claim C4, witness: the wrong-case name `new` is rejected with a
bad-request error. -/
theorem claim_C4_witness :
    list_inventory [(CONDITION, "new")] [] =
      Response.badRequest ("Invalid condition new") := by
  exact claim_C4_amended [(CONDITION, "new")] [] "new" rfl rfl rfl

/-- Claim C5: whenever the selected filter yields an empty result set, the
list endpoint answers 404 rather than an empty collection. -/
theorem claim_C5_empty_is_notfound (params : List (String × String))
    (store : List Inventory)
    (h : selectInventories params store = Except.ok []) :
    list_inventory params store = Response.notFound ("Inventory was not found") := by
  simp [list_inventory, h]

/-- Claim C5, witness: listing an empty store with no parameters answers
404. -/
theorem claim_C5_witness :
    list_inventory [] [] = Response.notFound ("Inventory was not found") := by
  exact claim_C5_empty_is_notfound [] [] rfl

/-- Claim C9: a non-empty parameter set containing none of the recognized
keys answers 400, for every store alike (the outcome never consults
storage). -/
theorem claim_C9_unrecognized_params (params : List (String × String))
    (store : List Inventory) (hne : params ≠ [])
    (h : ∀ kv ∈ params,
      kv.1 ∉ ([PRODUCT_ID, CONDITION, QUANTITY, RESTOCK_LEVEL, AVAILABLE] : List String)) :
    list_inventory params store = Response.badRequest ("Invalid request parameters") := by
  have h1 : params.lookup PRODUCT_ID = none :=
    lookup_eq_none_of_forall_ne _ params (fun kv hm he => (h kv hm) (by simp [he]))
  have h2 : params.lookup CONDITION = none :=
    lookup_eq_none_of_forall_ne _ params (fun kv hm he => (h kv hm) (by simp [he]))
  have h3 : params.lookup QUANTITY = none :=
    lookup_eq_none_of_forall_ne _ params (fun kv hm he => (h kv hm) (by simp [he]))
  have h4 : params.lookup RESTOCK_LEVEL = none :=
    lookup_eq_none_of_forall_ne _ params (fun kv hm he => (h kv hm) (by simp [he]))
  have h5 : params.lookup AVAILABLE = none :=
    lookup_eq_none_of_forall_ne _ params (fun kv hm he => (h kv hm) (by simp [he]))
  have hemp : params.isEmpty = false := by
    cases params with
    | nil => exact absurd rfl hne
    | cons kv rest => rfl
  simp [list_inventory, selectInventories, h1, h2, h3, h4, h5, hemp]

/-- Claim C9, witness: a single unrecognized parameter is rejected with 400
on a concrete store. -/
theorem claim_C9_witness :
    list_inventory [("color", "red")] [⟨1, Condition.NEW, 2, some 3, true⟩] =
      Response.badRequest ("Invalid request parameters") := by
  exact claim_C9_unrecognized_params [("color", "red")]
    [⟨1, Condition.NEW, 2, some 3, true⟩] (by decide) (by decide)

theorem find_key_facts (store : List Inventory) (pid : Int) (cond : String)
    (inv : Inventory)
    (h : Inventory.find_by_product_id_condition store pid cond = some inv) :
    inv.product_id = pid ∧ inv.condition.name = cond ∧
      ∀ r, r ∈ replaceRecord store pid cond r := by
  unfold Inventory.find_by_product_id_condition at h
  have hp := List.find?_some h
  have hm := List.mem_of_find?_eq_some h
  simp only [Bool.and_eq_true, beq_iff_eq] at hp
  refine ⟨hp.1, hp.2, ?_⟩
  intro r
  unfold replaceRecord
  have hmm := List.mem_map_of_mem
    (fun x => if x.product_id == pid && x.condition.name == cond then r else x) hm
  simpa [hp.1, hp.2] using hmm

/-- Claim C6: delete is idempotent — every delete answers 204 with no body,
deleting an absent key leaves the store unchanged, and a second delete of the
same key changes nothing further. -/
theorem claim_C6_delete_idempotent (pid : Int) (cond : String)
    (store : List Inventory) :
    (delete_inventory pid cond store).2 = Response.noContent ∧
    (Inventory.find_by_product_id_condition store pid cond = none →
      (delete_inventory pid cond store).1 = store) ∧
    (delete_inventory pid cond (delete_inventory pid cond store).1).1 =
      (delete_inventory pid cond store).1 := by
  refine ⟨?_, ?_, ?_⟩
  · cases h : Inventory.find_by_product_id_condition store pid cond <;>
      simp [delete_inventory, h]
  · intro h
    simp [delete_inventory, h]
  · cases h : Inventory.find_by_product_id_condition store pid cond with
    | none => simp [delete_inventory, h]
    | some inv =>
      have hf : Inventory.find_by_product_id_condition
          (store.filter
            (fun r => !(r.product_id == pid && r.condition.name == cond)))
          pid cond = none := by
        unfold Inventory.find_by_product_id_condition
        rw [List.find?_eq_none]
        intro x hx
        have hnx := (List.mem_filter.mp hx).2
        simp only [Bool.not_eq_eq_eq_not, Bool.not_true] at hnx
        simp [hnx]
      simp only [delete_inventory, h, hf]

/-- Claim C6, witness: deleting from an empty store answers 204 and leaves
the store empty. -/
theorem claim_C6_witness :
    (delete_inventory 1 "NEW" []).2 = Response.noContent ∧
      (delete_inventory 1 "NEW" []).1 = [] := by
  have h := claim_C6_delete_idempotent 1 "NEW" []
  exact ⟨h.1, h.2.1 rfl⟩

/-- Claim C10: whenever update, activate or deactivate succeeds with 200, the
record it stored and echoed carries the path's product_id and condition —
whatever identity fields the request body supplied were overwritten, so a
record can never be re-keyed through the body. -/
theorem claim_C10_path_identity (pid : Int) (cond : String) (req : Request)
    (store : List Inventory) :
    (∀ store2 b, update_inventory pid cond req store = (store2, Response.ok b) →
      ∃ r2, b = Inventory.serialize r2 ∧ r2.product_id = pid ∧
        r2.condition.name = cond ∧ r2 ∈ store2) ∧
    (∀ store2 b, activate_inventory pid cond req store = (store2, Response.ok b) →
      ∃ r2, b = Inventory.serialize r2 ∧ r2.product_id = pid ∧
        r2.condition.name = cond ∧ r2 ∈ store2) ∧
    (∀ store2 b, deactivate_inventory pid cond req store = (store2, Response.ok b) →
      ∃ r2, b = Inventory.serialize r2 ∧ r2.product_id = pid ∧
        r2.condition.name = cond ∧ r2 ∈ store2) := by
  refine ⟨?_, ?_, ?_⟩
  · intro store2 b hab
    unfold update_inventory at hab
    cases hf : Inventory.find_by_product_id_condition store pid cond with
    | none => rw [hf] at hab; simp at hab
    | some inv =>
      rw [hf] at hab
      cases hd : Inventory.deserialize (get_json req) with
      | error e => rw [hd] at hab; simp at hab
      | ok r =>
        rw [hd] at hab
        simp only [Prod.mk.injEq, Response.ok.injEq] at hab
        obtain ⟨hp1, hp2, hmem⟩ := find_key_facts store pid cond inv hf
        refine ⟨{ r with product_id := pid, condition := inv.condition },
          hab.2.symm, rfl, hp2, ?_⟩
        rw [← hab.1]
        exact hmem _
  · intro store2 b hab
    unfold activate_inventory at hab
    cases hf : Inventory.find_by_product_id_condition store pid cond with
    | none => rw [hf] at hab; simp at hab
    | some inv =>
      rw [hf] at hab
      cases hd : Inventory.deserialize (get_json req) with
      | error e => rw [hd] at hab; simp at hab
      | ok r =>
        rw [hd] at hab
        simp only [Prod.mk.injEq, Response.ok.injEq] at hab
        obtain ⟨hp1, hp2, hmem⟩ := find_key_facts store pid cond inv hf
        refine ⟨{ r with product_id := pid, condition := inv.condition, available := true }, hab.2.symm, rfl, hp2, ?_⟩
        rw [← hab.1]
        exact hmem _
  · intro store2 b hab
    unfold deactivate_inventory at hab
    cases hf : Inventory.find_by_product_id_condition store pid cond with
    | none => rw [hf] at hab; simp at hab
    | some inv =>
      rw [hf] at hab
      cases hd : Inventory.deserialize (get_json req) with
      | error e => rw [hd] at hab; simp at hab
      | ok r =>
        rw [hd] at hab
        simp only [Prod.mk.injEq, Response.ok.injEq] at hab
        obtain ⟨hp1, hp2, hmem⟩ := find_key_facts store pid cond inv hf
        refine ⟨{ r with product_id := pid, condition := inv.condition, available := false }, hab.2.symm, rfl, hp2, ?_⟩
        rw [← hab.1]
        exact hmem _

/-- Claim C10, witness: updating record (2, USED) with a body claiming
product_id 99 and condition NEW still stores and echoes product_id 2 and
condition USED. -/
theorem claim_C10_witness :
    ∃ r2,
      [(PRODUCT_ID, JVal.jInt 2), (CONDITION, JVal.jStr ("USED")),
        (QUANTITY, JVal.jInt 4), (RESTOCK_LEVEL, JVal.jNull),
        (AVAILABLE, JVal.jBool true)] = Inventory.serialize r2 ∧
      r2.product_id = 2 ∧ r2.condition.name = "USED" ∧
      r2 ∈ [(⟨2, Condition.USED, 4, none, true⟩ : Inventory)] := by
  exact (claim_C10_path_identity 2 "USED"
    ⟨some ("application/json"),
      JData.jMap [(PRODUCT_ID, JVal.jInt 99), (CONDITION, JVal.jStr ("NEW")),
        (QUANTITY, JVal.jInt 4)]⟩
    [⟨2, Condition.USED, 1, none, true⟩]).1
    [⟨2, Condition.USED, 4, none, true⟩]
    [(PRODUCT_ID, JVal.jInt 2), (CONDITION, JVal.jStr ("USED")),
      (QUANTITY, JVal.jInt 4), (RESTOCK_LEVEL, JVal.jNull),
      (AVAILABLE, JVal.jBool true)] rfl

end InventorySvc
